import Mathlib

/-!
Verification of the taxonomy synthesis pipeline of the Ecosystem-Mapper
repository (src/modules/taxonomy_analyzer.py), shallowly embedded in Lean.

The embedding models:
* Python values flowing through the summary builder (`PyVal`, dictionaries as
  association lists, `KeyError`/`TypeError` as an `Except` error type);
* `TaxonomyAnalyzer._prepare_data_summary` (`prepare_data_summary`);
* `TaxonomyAnalyzer._build_taxonomy_prompt` (`build_taxonomy_prompt`);
* the JSON documents produced by `json.loads` (`JValue`, `json_loads`, a
  character-level parser of the JSON grammar accepted by Python's `json`
  module, including its `NaN`/`Infinity` extensions, with last-wins duplicate
  keys and rejection of trailing data);
* the body of `TaxonomyAnalyzer.create_taxonomy` after the prompt is built
  (`parse_taxonomy_response`), with the backend call abstracted as an
  `InferenceOutcome` (its raw text on success, `str(e)` of the raised
  exception on failure);
* `TaxonomyAnalyzer.enrich_taxonomy` (`enrich_taxonomy`).
-/

set_option maxRecDepth 100000

namespace EcosystemMapper

/-! ## Python values and dictionaries -/

/-- The Python values that reach `_prepare_data_summary` through the
repository records and web results (strings, ints, `None`, lists). -/
inductive PyVal where
  | none : PyVal
  | int (n : Int) : PyVal
  | str (s : String) : PyVal
  | list (xs : List PyVal) : PyVal

/-- A Python dictionary with string keys, in insertion order. -/
abbrev PyDict := List (String × PyVal)

/-- The exceptions `_prepare_data_summary` can raise: `KeyError` from a
missing record key, `TypeError` from slicing or joining a wrong-typed value. -/
inductive PyErr where
  | keyError (key : String) : PyErr
  | typeError (msg : String) : PyErr
deriving DecidableEq, Repr

/-- Python type name, as it appears in error messages. -/
def pyTypeOf : PyVal → String
  | .none => "NoneType"
  | .int _ => "int"
  | .str _ => "str"
  | .list _ => "list"

mutual
/-- Python `repr`, as used when a list is formatted. Quote/escape subtleties
of `repr` on strings are not modelled beyond the plain single-quoted form. -/
def pyRepr : PyVal → String
  | .none => "None"
  | .int n => toString n
  | .str s => "'" ++ s ++ "'"
  | .list xs => "[" ++ ", ".intercalate (pyReprList xs) ++ "]"

/-- `repr` of each element of a list. -/
def pyReprList : List PyVal → List String
  | [] => []
  | v :: vs => pyRepr v :: pyReprList vs
end

/-- Python `str()`, as applied to an interpolated f-string expression. -/
def pyStr : PyVal → String
  | .none => "None"
  | .int n => toString n
  | .str s => s
  | .list xs => pyRepr (.list xs)

/-- Python `str.upper()` (character-wise uppercasing, as `String.toUpper`
does, written on the character list so that it evaluates inside the
kernel). -/
def pyUpper (s : String) : String := String.mk (s.data.map Char.toUpper)

/-- `d[k]` on a Python dictionary: the stored value, or `KeyError`. -/
def dict_get (d : PyDict) (k : String) : Except PyErr PyVal :=
  match d.lookup k with
  | some v => .ok v
  | Option.none => .error (.keyError k)

/-- Python slicing `v[:n]`: defined on strings and lists, `TypeError`
otherwise. -/
def pySlice (n : Nat) : PyVal → Except PyErr PyVal
  | .str s => .ok (.str (s.take n))
  | .list xs => .ok (.list (xs.take n))
  | v => .error (.typeError ("'" ++ pyTypeOf v ++ "' object is not subscriptable"))

/-- `', '.join(v)`: joins a list of strings (`TypeError` on a non-string
element), iterates a string character by character, `TypeError` otherwise. -/
def pyJoinComma : PyVal → Except PyErr String
  | .list xs =>
    match xs.mapM (fun v => match v with
        | .str s => Except.ok s
        | w => Except.error (PyErr.typeError
            ("sequence item: expected str instance, " ++ pyTypeOf w ++ " found"))) with
    | .ok ss => .ok (", ".intercalate ss)
    | .error e => .error e
  | .str s => .ok (", ".intercalate (s.data.map (fun c => String.mk [c])))
  | v => .error (.typeError ("can only join an iterable, not " ++ pyTypeOf v))

/-! ## Summary Builder (`_prepare_data_summary`) -/

/-- One repository entry of the data summary; the f-string of
taxonomy_analyzer.py lines 109-112, with its left-to-right evaluation of the
`repo[...]` accesses. -/
def render_repo (i : Nat) (repo : PyDict) : Except PyErr String := do
  let full_name ← dict_get repo "full_name"
  let stars ← dict_get repo "stars"
  let description ← dict_get repo "description"
  let topics ← dict_get repo "topics"
  let topicsSliced ← pySlice 5 topics
  let topicsJoined ← pyJoinComma topicsSliced
  let language ← dict_get repo "language"
  pure (toString i ++ ". " ++ pyStr full_name ++ " (" ++ pyStr stars ++ "⭐)\n" ++
    "   Description: " ++ pyStr description ++ "\n" ++
    "   Topics: " ++ topicsJoined ++ "\n" ++
    "   Language: " ++ pyStr language ++ "\n")

/-- One web-result entry of the data summary; the f-string of
taxonomy_analyzer.py lines 120-122 (`content` is sliced to 200 characters and
followed by a literal ellipsis). -/
def render_result (i : Nat) (result : PyDict) : Except PyErr String := do
  let title ← dict_get result "title"
  let url ← dict_get result "url"
  let content ← dict_get result "content"
  let contentSliced ← pySlice 200 content
  pure (toString i ++ ". " ++ pyStr title ++ "\n" ++
    "   URL: " ++ pyStr url ++ "\n" ++
    "   Content: " ++ pyStr contentSliced ++ "...\n")

/-- The repository entries, enumerated from `i` as Python's
`enumerate(github_data[:30], 1)` does (the truncation is applied by the
caller). -/
def repo_parts (i : Nat) : List PyDict → Except PyErr (List String)
  | [] => .ok []
  | repo :: rest => do
    let entry ← render_repo i repo
    let entries ← repo_parts (i + 1) rest
    pure (entry :: entries)

/-- The web-result entries of one category, enumerated from `i` as
`enumerate(results[:15], 1)` does (truncation applied by the caller). -/
def result_parts (i : Nat) : List PyDict → Except PyErr (List String)
  | [] => .ok []
  | result :: rest => do
    let entry ← render_result i result
    let entries ← result_parts (i + 1) rest
    pure (entry :: entries)

/-- The per-category blocks of the web-results section, in the insertion
order of `web_data` (a Python dict iterates its keys in insertion order):
a header part followed by the first 15 result entries. -/
def web_parts : List (String × List PyDict) → Except PyErr (List String)
  | [] => .ok []
  | (category, results) :: rest => do
    let entries ← result_parts 1 (results.take 15)
    let more ← web_parts rest
    pure (("\n=== WEB RESULTS: " ++ pyUpper category ++ " ===\n") :: entries ++ more)

/-- `TaxonomyAnalyzer._prepare_data_summary`: the GitHub header, the first 30
repository entries, then the web-result blocks, joined with `"\n"`. A raised
`KeyError`/`TypeError` propagates as `.error`. -/
def prepare_data_summary (github_data : List PyDict)
    (web_data : List (String × List PyDict)) : Except PyErr String := do
  let ghParts ← repo_parts 1 (github_data.take 30)
  let wParts ← web_parts web_data
  pure (String.intercalate "\n"
    (("=== GITHUB REPOSITORIES ===\n" :: ghParts) ++ wParts))

/-! ## JSON documents and `json.loads` -/

/-- A JSON document as produced by Python's `json.loads`: objects are
insertion-ordered dictionaries, numbers are kept as their lexeme (which also
records Python's `int` vs `float` distinction). -/
inductive JValue where
  | null : JValue
  | bool (b : Bool) : JValue
  | num (lexeme : String) : JValue
  | str (s : String) : JValue
  | arr (elements : List JValue) : JValue
  | obj (fields : List (String × JValue)) : JValue

/-- Python dictionary assignment `d[k] = v`: replaces the value in place when
the key exists (keeping its insertion position), appends otherwise. -/
def dictSet : List (String × JValue) → String → JValue → List (String × JValue)
  | [], k, v => [(k, v)]
  | (k0, v0) :: rest, k, v =>
    if k0 = k then (k0, v) :: rest else (k0, v0) :: dictSet rest k v

/-- Skip JSON whitespace (space, tab, newline, carriage return). -/
def jsonWs : List Char → List Char
  | [] => []
  | c :: rest =>
    if c = ' ' ∨ c = '\t' ∨ c = '\n' ∨ c = '\r' then jsonWs rest else c :: rest

/-- Value of a hexadecimal digit. -/
def hexVal (c : Char) : Option Nat :=
  if 48 ≤ c.toNat ∧ c.toNat ≤ 57 then some (c.toNat - 48)
  else if 97 ≤ c.toNat ∧ c.toNat ≤ 102 then some (c.toNat - 87)
  else if 65 ≤ c.toNat ∧ c.toNat ≤ 70 then some (c.toNat - 55)
  else Option.none

/-- Body of a JSON string after the opening quote: returns the decoded
characters and the input after the closing quote. Escapes are decoded;
unescaped control characters are rejected (Python's strict mode). -/
def parseStringBody : Nat → List Char → Option (List Char × List Char)
  | 0, _ => Option.none
  | _, [] => Option.none
  | fuel + 1, c :: rest =>
    if c = '"' then some ([], rest)
    else if c = '\\' then
      match rest with
      | [] => Option.none
      | e :: rest2 =>
        if e = 'u' then
          match rest2 with
          | h1 :: h2 :: h3 :: h4 :: rest3 =>
            match hexVal h1, hexVal h2, hexVal h3, hexVal h4 with
            | some a, some b, some c2, some d =>
              match parseStringBody fuel rest3 with
              | some (s, r) =>
                some (Char.ofNat (((a * 16 + b) * 16 + c2) * 16 + d) :: s, r)
              | Option.none => Option.none
            | _, _, _, _ => Option.none
          | _ => Option.none
        else
          match (if e = '"' then some '"'
                 else if e = '\\' then some '\\'
                 else if e = '/' then some '/'
                 else if e = 'b' then some (Char.ofNat 8)
                 else if e = 'f' then some (Char.ofNat 12)
                 else if e = 'n' then some '\n'
                 else if e = 'r' then some '\r'
                 else if e = 't' then some '\t'
                 else Option.none) with
          | some c2 =>
            match parseStringBody fuel rest2 with
            | some (s, r) => some (c2 :: s, r)
            | Option.none => Option.none
          | Option.none => Option.none
    else if c.toNat < 32 then Option.none
    else
      match parseStringBody fuel rest with
      | some (s, r) => some (c :: s, r)
      | Option.none => Option.none

/-- Longest digit prefix. -/
def spanDigits : List Char → List Char × List Char
  | [] => ([], [])
  | c :: rest =>
    if c.isDigit then
      let (d, r) := spanDigits rest
      (c :: d, r)
    else ([], c :: rest)

/-- Optional fraction part `.digits` of a JSON number. -/
def parseFracPart : List Char → Option (List Char × List Char)
  | '.' :: rest =>
    let (ds, r) := spanDigits rest
    if ds.isEmpty then Option.none else some ('.' :: ds, r)
  | cs => some ([], cs)

/-- Optional exponent part `[eE][+-]?digits` of a JSON number. -/
def parseExpPart : List Char → Option (List Char × List Char)
  | [] => some ([], [])
  | c :: rest =>
    if c = 'e' ∨ c = 'E' then
      let (sign, rest2) :=
        match rest with
        | [] => (([] : List Char), ([] : List Char))
        | s :: r2 => if s = '+' ∨ s = '-' then ([s], r2) else ([], s :: r2)
      let (ds, r) := spanDigits rest2
      if ds.isEmpty then Option.none else some (c :: (sign ++ ds), r)
    else some ([], c :: rest)

/-- A JSON number `-?(0|[1-9][0-9]*)(.[0-9]+)?([eE][+-]?[0-9]+)?`, returned
as its lexeme. -/
def parseNumber (cs : List Char) : Option (String × List Char) :=
  let (sign, cs1) :=
    match cs with
    | '-' :: r => (['-'], r)
    | _ => (([] : List Char), cs)
  let (intPart, cs2) :=
    match cs1 with
    | '0' :: r => (['0'], r)
    | _ => spanDigits cs1
  if intPart.isEmpty then Option.none
  else
    match parseFracPart cs2 with
    | Option.none => Option.none
    | some (fr, cs3) =>
      match parseExpPart cs3 with
      | Option.none => Option.none
      | some (ex, cs4) => some (String.mk (sign ++ intPart ++ fr ++ ex), cs4)

mutual
/-- A JSON value at the head of the input, as accepted by Python's `json`
module (including its `NaN`/`Infinity`/`-Infinity` extensions); returns the
value and the remaining input. The fuel bounds recursion depth and is chosen
large enough by `json_loads`. -/
def parseValue : Nat → List Char → Option (JValue × List Char)
  | 0, _ => Option.none
  | fuel + 1, cs =>
    match jsonWs cs with
    | [] => Option.none
    | c :: rest =>
      if c = '{' then
        match jsonWs rest with
        | '}' :: r => some (.obj [], r)
        | cs2 => parseFields fuel cs2 []
      else if c = '[' then
        match jsonWs rest with
        | ']' :: r => some (.arr [], r)
        | cs2 =>
          match parseElems fuel cs2 with
          | some (vs, r) => some (.arr vs, r)
          | Option.none => Option.none
      else if c = '"' then
        match parseStringBody (rest.length + 1) rest with
        | some (s, r) => some (.str (String.mk s), r)
        | Option.none => Option.none
      else if List.isPrefixOf "true".data (c :: rest) then
        some (.bool true, (c :: rest).drop 4)
      else if List.isPrefixOf "false".data (c :: rest) then
        some (.bool false, (c :: rest).drop 5)
      else if List.isPrefixOf "null".data (c :: rest) then
        some (.null, (c :: rest).drop 4)
      else if List.isPrefixOf "NaN".data (c :: rest) then
        some (.num "NaN", (c :: rest).drop 3)
      else if List.isPrefixOf "Infinity".data (c :: rest) then
        some (.num "Infinity", (c :: rest).drop 8)
      else if List.isPrefixOf "-Infinity".data (c :: rest) then
        some (.num "-Infinity", (c :: rest).drop 9)
      else
        match parseNumber (c :: rest) with
        | some (lex, r) => some (.num lex, r)
        | Option.none => Option.none

/-- Members of a JSON object after the opening brace (non-empty case),
accumulated with Python dictionary semantics (duplicate keys: last value
wins, first position kept). -/
def parseFields : Nat → List Char → List (String × JValue) →
    Option (JValue × List Char)
  | 0, _, _ => Option.none
  | fuel + 1, cs, acc =>
    match jsonWs cs with
    | '"' :: rest =>
      match parseStringBody (rest.length + 1) rest with
      | some (key, r1) =>
        match jsonWs r1 with
        | ':' :: r2 =>
          match parseValue fuel r2 with
          | some (v, r3) =>
            match jsonWs r3 with
            | ',' :: r4 => parseFields fuel r4 (dictSet acc (String.mk key) v)
            | '}' :: r4 => some (.obj (dictSet acc (String.mk key) v), r4)
            | _ => Option.none
          | Option.none => Option.none
        | _ => Option.none
      | Option.none => Option.none
    | _ => Option.none

/-- Elements of a JSON array after the opening bracket (non-empty case). -/
def parseElems : Nat → List Char → Option (List JValue × List Char)
  | 0, _ => Option.none
  | fuel + 1, cs =>
    match parseValue fuel cs with
    | some (v, r1) =>
      match jsonWs r1 with
      | ',' :: r2 =>
        match parseElems fuel r2 with
        | some (vs, r3) => some (v :: vs, r3)
        | Option.none => Option.none
      | ']' :: r2 => some ([v], r2)
      | _ => Option.none
    | Option.none => Option.none
end

/-- Python's `json.loads`: parse one document, reject trailing non-whitespace
data. -/
def json_loads (s : String) : Option JValue :=
  match parseValue (2 * s.data.length + 4) s.data with
  | some (v, rest) => if (jsonWs rest).isEmpty then some v else Option.none
  | Option.none => Option.none

/-- Python type name of a parsed JSON value (`json.loads` maps numbers with a
fraction, an exponent, or a non-finite constant to `float`, others to
`int`). -/
def jNumIsFloat (lexeme : String) : Bool :=
  lexeme.data.any (fun c => c = '.' || c = 'e' || c = 'E') ||
    lexeme == "NaN" || lexeme == "Infinity" || lexeme == "-Infinity"

/-- Python type name of a parsed JSON value, as used in error messages. -/
def jTypeOf : JValue → String
  | .null => "NoneType"
  | .bool _ => "bool"
  | .num lexeme => if jNumIsFloat lexeme then "float" else "int"
  | .str _ => "str"
  | .arr _ => "list"
  | .obj _ => "dict"

/-- Whether Python's `len()` is defined on the value (strings, lists,
dictionaries). -/
def jHasLen : JValue → Bool
  | .str _ => true
  | .arr _ => true
  | .obj _ => true
  | _ => false

/-! ## Prompt Composer (`_build_taxonomy_prompt` and the enrichment prompt) -/

/-- `TaxonomyAnalyzer._build_taxonomy_prompt`: the taxonomy-creation template
with the keyword and data summary interpolated (literal braces of the
template are written `\x7b`/`\x7d`). -/
def build_taxonomy_prompt (keyword : String) (data_summary : String) : String :=
  "Analyze the following data about \"" ++ keyword ++
  "\" and create a comprehensive ecosystem taxonomy.\n\nDATA:\n" ++ data_summary ++
  "\n\nTASK:\nCreate a structured taxonomy that:\n" ++
  "1. Identifies 5-8 main categories within this ecosystem\n" ++
  "2. For each category, identify 2-4 subcategories\n" ++
  "3. Find 3-5 representative examples (projects/tools/companies) for each category\n" ++
  "4. Describe the purpose and focus of each category\n" ++
  "5. Identify relationships between categories (e.g., \"builds on\", \"complements\", \"alternative to\")\n" ++
  "\nOUTPUT FORMAT (JSON):\n" ++
  "\x7b\n  \"ecosystem_name\": \"" ++ keyword ++ "\",\n" ++
  "  \"overview\": \"Brief 2-3 sentence overview of the ecosystem\",\n" ++
  "  \"categories\": [\n    \x7b\n      \"name\": \"Category Name\",\n" ++
  "      \"description\": \"What this category focuses on\",\n" ++
  "      \"subcategories\": [\"Subcategory 1\", \"Subcategory 2\"],\n" ++
  "      \"examples\": [\n        \x7b\n          \"name\": \"Project/Tool Name\",\n" ++
  "          \"description\": \"Brief description\",\n" ++
  "          \"url\": \"URL if available\",\n" ++
  "          \"type\": \"open-source|commercial|framework|library|platform\"\n        \x7d\n      ],\n" ++
  "      \"relationships\": [\"Related to X\", \"Built on Y\"]\n    \x7d\n  ],\n" ++
  "  \"key_trends\": [\"Trend 1\", \"Trend 2\", \"Trend 3\"],\n" ++
  "  \"emerging_areas\": [\"Area 1\", \"Area 2\"]\n\x7d\n" ++
  "\nRespond ONLY with valid JSON. Do not include any markdown formatting or additional text."

/-- Lowercase hexadecimal digit. -/
def hexDigitChar (n : Nat) : Char :=
  if n < 10 then Char.ofNat (48 + n) else Char.ofNat (87 + n)

/-- `\uXXXX` escape of a (basic-plane) code point. -/
def uEscape (n : Nat) : String :=
  "\\u" ++ String.mk [hexDigitChar (n / 4096 % 16), hexDigitChar (n / 256 % 16),
    hexDigitChar (n / 16 % 16), hexDigitChar (n % 16)]

/-- One character of a `json.dumps` string (default `ensure_ascii=True`;
code points beyond the basic plane, which `json.dumps` writes as surrogate
pairs, are not modelled). -/
def jsonEscapeChar (c : Char) : String :=
  if c = '"' then "\\\""
  else if c = '\\' then "\\\\"
  else if c = '\n' then "\\n"
  else if c = '\t' then "\\t"
  else if c = '\r' then "\\r"
  else if c.toNat = 8 then "\\b"
  else if c.toNat = 12 then "\\f"
  else if c.toNat < 32 ∨ c.toNat > 126 then uEscape c.toNat
  else String.mk [c]

/-- `json.dumps` escaping of string content. -/
def jsonEscape (s : String) : String := String.join (s.data.map jsonEscapeChar)

/-- `n` spaces. -/
def spaces (n : Nat) : String := String.mk (List.replicate n ' ')

mutual
/-- `json.dumps(v, indent=2)` at current indentation `ind` (the serialized
document embedded in the enrichment prompt). -/
def json_dumps_indent (ind : Nat) : JValue → String
  | .null => "null"
  | .bool b => if b then "true" else "false"
  | .num lexeme => lexeme
  | .str s => "\"" ++ jsonEscape s ++ "\""
  | .arr [] => "[]"
  | .arr (v :: vs) =>
    "[\n" ++ ",\n".intercalate (dumpsElems (ind + 2) (v :: vs)) ++ "\n" ++
      spaces ind ++ "]"
  | .obj [] => "\x7b\x7d"
  | .obj (f :: fs) =>
    "\x7b\n" ++ ",\n".intercalate (dumpsFields (ind + 2) (f :: fs)) ++ "\n" ++
      spaces ind ++ "\x7d"

/-- The serialized elements of an array, each on its own indented line. -/
def dumpsElems (ind : Nat) : List JValue → List String
  | [] => []
  | v :: vs => (spaces ind ++ json_dumps_indent ind v) :: dumpsElems ind vs

/-- The serialized members of an object, each on its own indented line. -/
def dumpsFields (ind : Nat) : List (String × JValue) → List String
  | [] => []
  | (k, v) :: fs =>
    (spaces ind ++ "\"" ++ jsonEscape k ++ "\": " ++ json_dumps_indent ind v) ::
      dumpsFields ind fs
end

/-- The enrichment prompt of `TaxonomyAnalyzer.enrich_taxonomy` (lines
181-200), with the serialized taxonomy interpolated. -/
def build_enrichment_prompt (taxonomy_dump : String) : String :=
  "Given this ecosystem taxonomy:\n\n" ++ taxonomy_dump ++
  "\n\nProvide additional insights:\n" ++
  "1. Market maturity assessment (emerging, growing, mature)\n" ++
  "2. Key differentiators between categories\n" ++
  "3. Gaps or underserved areas in the ecosystem\n" ++
  "4. Potential convergence or integration opportunities\n" ++
  "\nOUTPUT FORMAT (JSON):\n" ++
  "\x7b\n  \"maturity_level\": \"emerging|growing|mature\",\n" ++
  "  \"maturity_analysis\": \"Brief explanation\",\n" ++
  "  \"category_differentiators\": \x7b\"Category1\": \"Key differentiator\", \"Category2\": \"Key differentiator\"\x7d,\n" ++
  "  \"ecosystem_gaps\": [\"Gap 1\", \"Gap 2\"],\n" ++
  "  \"integration_opportunities\": [\"Opportunity 1\", \"Opportunity 2\"]\n\x7d\n" ++
  "\nRespond ONLY with valid JSON."

/-! ## `create_taxonomy` and `enrich_taxonomy` -/

/-- Outcome of one backend inference call: the raw response text, or the
`str(e)` of the exception the call raised (transport failure, rate limit,
and any other error arising before a response string reaches
`json.loads`). -/
inductive InferenceOutcome where
  | success (text : String) : InferenceOutcome
  | failure (message : String) : InferenceOutcome

/-- The body of `create_taxonomy`'s `try` block and its two `except`
handlers, given the inference outcome. On a response that parses as a
non-dictionary JSON value, line 85's `taxonomy.get` raises `AttributeError`,
caught by the generic handler; on a dictionary whose `categories` value has
no `len()`, line 85 raises `TypeError`, likewise caught. The returned value
is always a Python dictionary. -/
def parse_taxonomy_response : InferenceOutcome → List (String × JValue)
  | .failure message => [("error", .str message)]
  | .success text =>
    match json_loads text with
    | Option.none =>
      [("error", .str "Failed to parse taxonomy"), ("raw_response", .str text)]
    | some (.obj fields) =>
      let categories := (fields.lookup "categories").getD (.arr [])
      if jHasLen categories then fields
      else [("error", .str ("object of type '" ++ jTypeOf categories ++ "' has no len()"))]
    | some v =>
      [("error", .str ("'" ++ jTypeOf v ++ "' object has no attribute 'get'"))]

/-- `TaxonomyAnalyzer.create_taxonomy`: builds the data summary and the
prompt before the `try` block, so a `KeyError`/`TypeError` raised while
summarizing propagates to the caller (`.error`); every failure inside the
`try` block is converted into a returned dictionary. -/
def create_taxonomy (keyword : String) (github_data : List PyDict)
    (web_data : List (String × List PyDict)) (outcome : InferenceOutcome) :
    Except PyErr JValue :=
  match prepare_data_summary github_data web_data with
  | .error e => .error e
  | .ok data_summary =>
    let _prompt := build_taxonomy_prompt keyword data_summary
    .ok (.obj (parse_taxonomy_response outcome))

/-- `TaxonomyAnalyzer.enrich_taxonomy`: short-circuits on an error result,
otherwise serializes the taxonomy into the enrichment prompt, and on a
successfully parsed response stores it under `insights`
(`taxonomy["insights"] = insights`); any exception inside the `try` block
(transport failure or parse failure) yields the input unchanged. -/
def enrich_taxonomy (taxonomy : List (String × JValue))
    (outcome : InferenceOutcome) : List (String × JValue) :=
  if (taxonomy.lookup "error").isSome then taxonomy
  else
    let _prompt := build_enrichment_prompt (json_dumps_indent 0 (.obj taxonomy))
    match outcome with
    | .failure _ => taxonomy
    | .success text =>
      match json_loads text with
      | Option.none => taxonomy
      | some insights => dictSet taxonomy "insights" insights

/-! ## Observations used by the theorems -/

/-- Drop input up to and including the first occurrence of `pat`; `none` when
`pat` does not occur. -/
def skipPast (pat : List Char) : List Char → Option (List Char)
  | [] => if pat.isEmpty then some [] else Option.none
  | c :: cs =>
    if List.isPrefixOf pat (c :: cs) then some ((c :: cs).drop pat.length)
    else skipPast pat cs

/-- Whether the patterns each occur in `cs`, in the given order and without
overlap. -/
def occursInOrderChars : List Char → List String → Bool
  | _, [] => true
  | cs, p :: ps =>
    match skipPast p.data cs with
    | some rest => occursInOrderChars rest ps
    | Option.none => false

/-- Whether the patterns each occur in `s`, in the given order. -/
def occursInOrder (s : String) (pats : List String) : Bool :=
  occursInOrderChars s.data pats

/-- Whether `json.loads` succeeded with a top-level dictionary — the only
document type `create_taxonomy` can return as a successful taxonomy. -/
def isTopLevelDict : Option JValue → Bool
  | some (.obj _) => true
  | _ => false

/-- The ErrorResult runtime signal used throughout the source:
`"error" in taxonomy`. -/
def hasErrorKey (d : List (String × JValue)) : Bool := (d.lookup "error").isSome

/-- Whether the value is a JSON array of strings. -/
def isStringArr : JValue → Bool
  | .arr xs => xs.all (fun v => match v with | .str _ => true | _ => false)
  | _ => false

/-- A TaxonomyExample document, as requested in the prompt schema: name,
description, url (nullable), type. -/
def isExampleShaped : JValue → Bool
  | .obj fs =>
    (match fs.lookup "name" with | some (.str _) => true | _ => false) &&
    (match fs.lookup "description" with | some (.str _) => true | _ => false) &&
    (match fs.lookup "url" with | some (.str _) => true | some .null => true | _ => false) &&
    (match fs.lookup "type" with | some (.str _) => true | _ => false)
  | _ => false

/-- A TaxonomyCategory document, as requested in the prompt schema. -/
def isCategoryShaped : JValue → Bool
  | .obj fs =>
    (match fs.lookup "name" with | some (.str _) => true | _ => false) &&
    (match fs.lookup "description" with | some (.str _) => true | _ => false) &&
    (match fs.lookup "subcategories" with | some v => isStringArr v | _ => false) &&
    (match fs.lookup "examples" with
      | some (.arr xs) => xs.all isExampleShaped | _ => false) &&
    (match fs.lookup "relationships" with | some v => isStringArr v | _ => false)
  | _ => false

/-- A document matching the Taxonomy shape requested in the prompt:
ecosystem_name, overview, categories (a list of category documents),
key_trends, emerging_areas. -/
def isTaxonomyShaped : JValue → Bool
  | .obj fs =>
    (match fs.lookup "ecosystem_name" with | some (.str _) => true | _ => false) &&
    (match fs.lookup "overview" with | some (.str _) => true | _ => false) &&
    (match fs.lookup "categories" with
      | some (.arr xs) => xs.all isCategoryShaped | _ => false) &&
    (match fs.lookup "key_trends" with | some v => isStringArr v | _ => false) &&
    (match fs.lookup "emerging_areas" with | some v => isStringArr v | _ => false)
  | _ => false

/-! ## Concrete inputs used by the scenario checks and witnesses -/

/-- A complete repository record with the given full name and star count. -/
def sampleRepo (full_name : String) (stars : Int) : PyDict :=
  [("full_name", .str full_name), ("stars", .int stars),
   ("description", .str "d"), ("topics", .list []), ("language", .str "Python")]

/-- End-to-end scenario 1 of the spec: five records with star counts
100, 200, 50, 400, 10, in that input order. -/
def scenario1Repos : List PyDict :=
  [sampleRepo "r1" 100, sampleRepo "r2" 200, sampleRepo "r3" 50,
   sampleRepo "r4" 400, sampleRepo "r5" 10]

/-- 31 repository records named `R1END` … `R31END`. -/
def thirtyOneRepos : List PyDict :=
  (List.range 31).map (fun k => sampleRepo ("R" ++ toString (k + 1) ++ "END") 1)

/-- A complete web-result record with the given title. -/
def sampleResult (title : String) : PyDict :=
  [("title", .str title), ("url", .str "u"), ("content", .str "c")]

/-- A WebResultSet with 16 results under `tools` followed by one result under
`general` (insertion order deliberately differs from alphabetical order). -/
def sixteenResultWeb : List (String × List PyDict) :=
  [("tools", (List.range 16).map (fun k => sampleResult ("T" ++ toString (k + 1) ++ "END"))),
   ("general", [sampleResult "G1END"])]

/-- A syntactically valid response document matching the Taxonomy shape. -/
def taxonomyDocText : String :=
  "\x7b\"ecosystem_name\": \"agentic AI\", \"overview\": \"o\", " ++
  "\"categories\": [\x7b\"name\": \"C1\", \"description\": \"dc\", " ++
  "\"subcategories\": [\"S1\", \"S2\"], " ++
  "\"examples\": [\x7b\"name\": \"E1\", \"description\": \"de\", \"url\": \"https://e\", \"type\": \"library\"\x7d], " ++
  "\"relationships\": [\"Related to X\"]\x7d], " ++
  "\"key_trends\": [\"T1\"], \"emerging_areas\": [\"A1\"]\x7d"

/-- The document `taxonomyDocText` parses to. -/
def taxonomyDocVal : JValue :=
  .obj [("ecosystem_name", .str "agentic AI"), ("overview", .str "o"),
    ("categories", .arr [.obj [("name", .str "C1"), ("description", .str "dc"),
      ("subcategories", .arr [.str "S1", .str "S2"]),
      ("examples", .arr [.obj [("name", .str "E1"), ("description", .str "de"),
        ("url", .str "https://e"), ("type", .str "library")]]),
      ("relationships", .arr [.str "Related to X"])]]),
    ("key_trends", .arr [.str "T1"]), ("emerging_areas", .arr [.str "A1"])]

/-! ## Helper lemmas -/

/-- Per-category truncation is idempotent: pre-truncating every category's
results to 15 does not change the rendered web blocks. -/
theorem web_parts_map_take (web_data : List (String × List PyDict)) :
    web_parts (web_data.map (fun p => (p.1, p.2.take 15))) = web_parts web_data := by
  induction web_data with
  | nil => rfl
  | cons p rest ih =>
    obtain ⟨category, results⟩ := p
    simp [web_parts, List.take_take, ih]

/-- Python dictionary assignment of a fresh key appends it at the end. -/
theorem dictSet_fresh_append (d : List (String × JValue)) (k : String) (v : JValue)
    (h : d.lookup k = Option.none) : dictSet d k v = d ++ [(k, v)] := by
  induction d with
  | nil => rfl
  | cons p rest ih =>
    obtain ⟨k0, v0⟩ := p
    simp only [List.lookup] at h
    by_cases hk : k = k0
    · subst hk; simp at h
    · have hbeq : (k == k0) = false := beq_eq_false_iff_ne.mpr hk
      rw [hbeq] at h
      have hne : k0 ≠ k := fun he => hk he.symm
      simp [dictSet, hne, ih h]

/-- Appending a binding for a different key does not change a lookup. -/
theorem lookup_append_single_ne (d : List (String × JValue)) (k k1 : String)
    (v : JValue) (h : k ≠ k1) : (d ++ [(k1, v)]).lookup k = d.lookup k := by
  induction d with
  | nil =>
    have hbeq : (k == k1) = false := beq_eq_false_iff_ne.mpr h
    simp [List.lookup, hbeq]
  | cons p rest ih =>
    obtain ⟨k0, v0⟩ := p
    simp only [List.cons_append, List.lookup]
    cases hk : (k == k0) <;> simp [ih]

/-- Reduction of a bind on a successful `Except` value. -/
theorem except_bind_ok {ε α β : Type} (a : α) (f : α → Except ε β) :
    (Except.ok a : Except ε α) >>= f = f a := rfl

/-! ## Claim theorems -/

/-- C6: for every repository input the Summary Builder's rendered text
references only the first 30 records (truncating the input to 30 records
changes nothing), and on the five-record scenario with star counts
100, 200, 50, 400, 10 the records are listed in input order, not reordered by
star count; a 31st record never appears. -/
theorem summary_first_thirty_repos_input_order :
    (∀ (github_data : List PyDict) (web_data : List (String × List PyDict)),
        prepare_data_summary github_data web_data =
          prepare_data_summary (github_data.take 30) web_data) ∧
    (prepare_data_summary scenario1Repos []).toOption.map (fun s =>
        occursInOrder s ["(100⭐)", "(200⭐)", "(50⭐)", "(400⭐)", "(10⭐)"] &&
        !occursInOrder s ["(400⭐)", "(200⭐)", "(100⭐)", "(50⭐)", "(10⭐)"]) =
      some true ∧
    (prepare_data_summary thirtyOneRepos []).toOption.map (fun s =>
        occursInOrder s ["30. R30END"] && !occursInOrder s ["R31END"]) =
      some true := by
  refine ⟨fun github_data web_data => ?_, by decide, by decide⟩
  simp [prepare_data_summary, List.take_take]

/-- C7: truncating every category of the WebResultSet to its first 15 results
does not change the rendered summary (only the first 15 per category are
rendered); each rendered result shows its title, url, and the 200-character
prefix of its content followed by an ellipsis marker; and categories appear in
insertion order (`tools` before `general` in the scenario), with a 16th
result never rendered. -/
theorem web_results_truncated_to_fifteen :
    (∀ (github_data : List PyDict) (web_data : List (String × List PyDict)),
        prepare_data_summary github_data web_data =
          prepare_data_summary github_data
            (web_data.map (fun p => (p.1, p.2.take 15)))) ∧
    (∀ (i : Nat) (result : PyDict) (title url content : String),
        result.lookup "title" = some (.str title) →
        result.lookup "url" = some (.str url) →
        result.lookup "content" = some (.str content) →
        render_result i result = .ok (toString i ++ ". " ++ title ++ "\n" ++
          "   URL: " ++ url ++ "\n" ++
          "   Content: " ++ content.take 200 ++ "...\n")) ∧
    (prepare_data_summary [] sixteenResultWeb).toOption.map (fun s =>
        occursInOrder s ["=== WEB RESULTS: TOOLS ===", "15. T15END",
          "=== WEB RESULTS: GENERAL ===", "G1END"] &&
        !occursInOrder s ["T16END"]) = some true := by
  refine ⟨fun github_data web_data => ?_,
    fun i result title url content h1 h2 h3 => ?_, by decide⟩
  · simp [prepare_data_summary, web_parts_map_take]
  · simp only [render_result, dict_get, h1, h2, h3]
    rfl

/-- C7 witness: the rendered entry of a concrete web result. -/
theorem web_results_truncated_to_fifteen_witness :
    render_result 1 (sampleResult "T1END") = .ok (toString 1 ++ ". " ++
      "T1END" ++ "\n" ++ "   URL: " ++ "u" ++ "\n" ++ "   Content: " ++
      "c".take 200 ++ "...\n") :=
  web_results_truncated_to_fifteen.2.1 1 (sampleResult "T1END") "T1END" "u" "c"
    rfl rfl rfl

/-- C2: whenever the raw response text does not parse as a top-level
dictionary — unparseable text, or a JSON array, number, or bare string —
`create_taxonomy` returns a dictionary carrying the `error` key (an
ErrorResult), never the parsed value as a successful taxonomy. -/
theorem non_document_response_gives_error (keyword text data_summary : String)
    (github_data : List PyDict) (web_data : List (String × List PyDict))
    (hs : prepare_data_summary github_data web_data = .ok data_summary)
    (h : isTopLevelDict (json_loads text) = false) :
    create_taxonomy keyword github_data web_data (.success text) =
      .ok (.obj (parse_taxonomy_response (.success text))) ∧
    hasErrorKey (parse_taxonomy_response (.success text)) = true := by
  constructor
  · unfold create_taxonomy; rw [hs]
  · simp only [parse_taxonomy_response]
    cases hj : json_loads text with
    | none => rfl
    | some v =>
      rw [hj] at h
      cases v with
      | obj fields => simp [isTopLevelDict] at h
      | null => rfl
      | bool b => rfl
      | num lexeme => rfl
      | str s => rfl
      | arr elements => rfl

/-- C2 witness: the literal array text `[1, 2]` parses to a non-dictionary
document and `create_taxonomy` turns it into an ErrorResult. -/
theorem non_document_response_gives_error_witness :
    create_taxonomy "agentic AI" [] [] (.success "[1, 2]") =
      .ok (.obj (parse_taxonomy_response (.success "[1, 2]"))) ∧
    hasErrorKey (parse_taxonomy_response (.success "[1, 2]")) = true :=
  non_document_response_gives_error "agentic AI" "[1, 2]"
    "=== GITHUB REPOSITORIES ===\n" [] [] rfl (by decide)

/-- C3: whenever the raw response text fails to parse, `create_taxonomy`
returns exactly the dictionary with error tag `"Failed to parse taxonomy"`
and the original raw text under `raw_response`. -/
theorem parse_failure_preserves_raw_text (keyword text data_summary : String)
    (github_data : List PyDict) (web_data : List (String × List PyDict))
    (hs : prepare_data_summary github_data web_data = .ok data_summary)
    (h : json_loads text = Option.none) :
    create_taxonomy keyword github_data web_data (.success text) =
      .ok (.obj [("error", .str "Failed to parse taxonomy"),
                 ("raw_response", .str text)]) := by
  unfold create_taxonomy; rw [hs]
  simp only [parse_taxonomy_response, h]

/-- C3 witness: end-to-end scenario 2 of the spec, on the literal text
`not json at all`. -/
theorem parse_failure_preserves_raw_text_witness :
    create_taxonomy "agentic AI" [] [] (.success "not json at all") =
      .ok (.obj [("error", .str "Failed to parse taxonomy"),
                 ("raw_response", .str "not json at all")]) :=
  parse_failure_preserves_raw_text "agentic AI" "not json at all"
    "=== GITHUB REPOSITORIES ===\n" [] [] rfl rfl

/-- C9: on any inference failure other than a parse failure (the generic
exception handler: transport failure, rate limit, and similar), the result is
the dictionary carrying only the failure description, with no
`raw_response` field. -/
theorem transport_failure_error_without_raw_text
    (keyword message data_summary : String)
    (github_data : List PyDict) (web_data : List (String × List PyDict))
    (hs : prepare_data_summary github_data web_data = .ok data_summary) :
    create_taxonomy keyword github_data web_data (.failure message) =
      .ok (.obj [("error", .str message)]) ∧
    (parse_taxonomy_response (.failure message)).lookup "raw_response" =
      Option.none := by
  refine ⟨?_, rfl⟩
  unfold create_taxonomy; rw [hs]; rfl

/-- C9 witness: a concrete transport failure. -/
theorem transport_failure_error_without_raw_text_witness :
    create_taxonomy "agentic AI" [] [] (.failure "Connection error.") =
      .ok (.obj [("error", .str "Connection error.")]) ∧
    (parse_taxonomy_response (.failure "Connection error.")).lookup
      "raw_response" = Option.none :=
  transport_failure_error_without_raw_text "agentic AI" "Connection error."
    "=== GITHUB REPOSITORIES ===\n" [] [] rfl

/-- C10: the data summary and prompt are built before the exception-handling
block — a repository record lacking the required `full_name` key makes
`create_taxonomy` raise `KeyError` to its caller for every inference outcome,
instead of returning an ErrorResult; and whenever summarization succeeds,
`create_taxonomy` always returns a dictionary (only inference-call and parse
failures are converted to ErrorResult). -/
theorem missing_key_raises_to_caller :
    (∀ outcome : InferenceOutcome,
        create_taxonomy "agentic AI" [[("name", .str "x")]] [] outcome =
          .error (.keyError "full_name")) ∧
    (∀ (keyword data_summary : String) (github_data : List PyDict)
        (web_data : List (String × List PyDict)) (outcome : InferenceOutcome),
        prepare_data_summary github_data web_data = .ok data_summary →
        create_taxonomy keyword github_data web_data outcome =
          .ok (.obj (parse_taxonomy_response outcome))) := by
  constructor
  · intro outcome; rfl
  · intro keyword data_summary github_data web_data outcome hs
    unfold create_taxonomy; rw [hs]

/-- C10 witness: the `KeyError` on a record missing `full_name`, and the
converted dictionary result once summarization succeeds. -/
theorem missing_key_raises_to_caller_witness :
    create_taxonomy "agentic AI" [[("name", .str "x")]] [] (.failure "boom") =
      .error (.keyError "full_name") ∧
    create_taxonomy "agentic AI" [] [] (.failure "boom") =
      .ok (.obj (parse_taxonomy_response (.failure "boom"))) :=
  ⟨missing_key_raises_to_caller.1 (.failure "boom"),
   missing_key_raises_to_caller.2 "agentic AI" "=== GITHUB REPOSITORIES ===\n"
     [] [] (.failure "boom") rfl⟩

/-- C4: for every taxonomy that is not an ErrorResult, an enrichment call
failure or a parse failure of its response leaves `enrich_taxonomy` returning
the original taxonomy unchanged; no exception reaches the caller (the
embedding of `enrich_taxonomy` is a total function). -/
theorem enrich_failure_returns_original (taxonomy : List (String × JValue))
    (herr : hasErrorKey taxonomy = false) :
    (∀ message, enrich_taxonomy taxonomy (.failure message) = taxonomy) ∧
    (∀ text, json_loads text = Option.none →
        enrich_taxonomy taxonomy (.success text) = taxonomy) := by
  unfold hasErrorKey at herr
  constructor
  · intro message
    simp [enrich_taxonomy, herr]
  · intro text hp
    simp [enrich_taxonomy, herr, hp]

/-- C4 witness: a one-category taxonomy survives a transport failure and an
unparseable enrichment response unchanged. -/
theorem enrich_failure_returns_original_witness :
    enrich_taxonomy [("categories", .arr [])] (.failure "Connection error.") =
      [("categories", .arr [])] ∧
    enrich_taxonomy [("categories", .arr [])] (.success "not json at all") =
      [("categories", .arr [])] :=
  ⟨(enrich_failure_returns_original [("categories", .arr [])] rfl).1
      "Connection error.",
   (enrich_failure_returns_original [("categories", .arr [])] rfl).2
      "not json at all" rfl⟩

/-- C5: for every non-error taxonomy without an `insights` key, a successful
enrichment call appends exactly the one key `insights` at the end: every
pre-existing key — `categories` in particular — keeps its value, and the key
sequence is the old one followed by `insights`. -/
theorem enrich_success_adds_only_insights (taxonomy : List (String × JValue))
    (insights : JValue) (text : String)
    (herr : hasErrorKey taxonomy = false)
    (hins : taxonomy.lookup "insights" = Option.none)
    (hp : json_loads text = some insights) :
    enrich_taxonomy taxonomy (.success text) =
      taxonomy ++ [("insights", insights)] ∧
    (∀ k, k ≠ "insights" →
        (enrich_taxonomy taxonomy (.success text)).lookup k =
          taxonomy.lookup k) ∧
    (enrich_taxonomy taxonomy (.success text)).lookup "categories" =
      taxonomy.lookup "categories" ∧
    (enrich_taxonomy taxonomy (.success text)).map Prod.fst =
      taxonomy.map Prod.fst ++ ["insights"] := by
  unfold hasErrorKey at herr
  have hmain : enrich_taxonomy taxonomy (.success text) =
      taxonomy ++ [("insights", insights)] := by
    simp [enrich_taxonomy, herr, hp, dictSet_fresh_append taxonomy "insights" insights hins]
  refine ⟨hmain, fun k hk => ?_, ?_, ?_⟩
  · rw [hmain, lookup_append_single_ne taxonomy k "insights" insights hk]
  · rw [hmain,
      lookup_append_single_ne taxonomy "categories" "insights" insights (by decide)]
  · rw [hmain]; simp

/-- C5 witness: enriching a concrete two-key taxonomy with a parsed insights
document appends `insights` and nothing else. -/
theorem enrich_success_adds_only_insights_witness :
    enrich_taxonomy [("ecosystem_name", .str "agentic AI"), ("categories", .arr [])]
        (.success "\x7b\"maturity_level\": \"mature\"\x7d") =
      [("ecosystem_name", .str "agentic AI"), ("categories", .arr []),
       ("insights", .obj [("maturity_level", .str "mature")])] :=
  (enrich_success_adds_only_insights
    [("ecosystem_name", .str "agentic AI"), ("categories", .arr [])]
    (.obj [("maturity_level", .str "mature")])
    "\x7b\"maturity_level\": \"mature\"\x7d" rfl rfl rfl).1

/-- C8: whenever the response text parses as a document matching the
Taxonomy shape, `create_taxonomy` returns exactly the parsed document — in
particular the categories list has the same length and the same field values
as the input document (round-trip fidelity). -/
theorem taxonomy_shaped_response_round_trip (keyword text data_summary : String)
    (github_data : List PyDict) (web_data : List (String × List PyDict))
    (v : JValue)
    (hs : prepare_data_summary github_data web_data = .ok data_summary)
    (hp : json_loads text = some v)
    (hshape : isTaxonomyShaped v = true) :
    create_taxonomy keyword github_data web_data (.success text) = .ok v := by
  unfold create_taxonomy; rw [hs]
  cases v with
  | null => simp [isTaxonomyShaped] at hshape
  | bool b => simp [isTaxonomyShaped] at hshape
  | num lexeme => simp [isTaxonomyShaped] at hshape
  | str s => simp [isTaxonomyShaped] at hshape
  | arr elements => simp [isTaxonomyShaped] at hshape
  | obj fields =>
    have hcat : ∃ xs, fields.lookup "categories" = some (.arr xs) := by
      unfold isTaxonomyShaped at hshape
      simp only [Bool.and_eq_true] at hshape
      obtain ⟨⟨⟨⟨-, -⟩, hcat⟩, -⟩, -⟩ := hshape
      cases hl : fields.lookup "categories" with
      | none => rw [hl] at hcat; exact absurd hcat (by simp)
      | some w =>
        rw [hl] at hcat
        cases w with
        | arr xs => exact ⟨xs, rfl⟩
        | null => exact absurd hcat (by simp)
        | bool b => exact absurd hcat (by simp)
        | num lexeme => exact absurd hcat (by simp)
        | str s => exact absurd hcat (by simp)
        | obj fs => exact absurd hcat (by simp)
    obtain ⟨xs, hxs⟩ := hcat
    simp [parse_taxonomy_response, hp, hxs, jHasLen]

/-- C8 witness: a concrete valid Taxonomy document (one category with one
example) parses and is returned intact. -/
theorem taxonomy_shaped_response_round_trip_witness :
    json_loads taxonomyDocText = some taxonomyDocVal ∧
    isTaxonomyShaped taxonomyDocVal = true ∧
    create_taxonomy "agentic AI" [] [] (.success taxonomyDocText) =
      .ok taxonomyDocVal :=
  ⟨rfl, rfl,
   taxonomy_shaped_response_round_trip "agentic AI" taxonomyDocText
     "=== GITHUB REPOSITORIES ===\n" [] [] taxonomyDocVal rfl rfl rfl⟩

/-- C1 counterexample: no fixed bound covers the rendered summary's length
for every input — the description of even a single repository record is
rendered in full, so for any candidate bound a record whose description is
one character longer defeats it. -/
theorem summary_size_not_bounded :
    ¬ ∃ bound : Nat, ∀ (github_data : List PyDict)
        (web_data : List (String × List PyDict)) (s : String),
        prepare_data_summary github_data web_data = .ok s →
        s.length ≤ bound := by
  rintro ⟨bound, h⟩
  have hlen := h
    [[("full_name", .str "r"), ("stars", .int 0),
      ("description", .str (String.mk (List.replicate (bound + 1) 'a'))),
      ("topics", .list []), ("language", .str "L")]] []
    (("=== GITHUB REPOSITORIES ===\n" ++ "\n") ++
      ("1" ++ ". " ++ "r" ++ " (" ++ "0" ++ "⭐)\n" ++ "   Description: " ++
        String.mk (List.replicate (bound + 1) 'a') ++ "\n" ++ "   Topics: " ++
        "" ++ "\n" ++ "   Language: " ++ "L" ++ "\n")) rfl
  have hrep : (String.mk (List.replicate (bound + 1) 'a')).length = bound + 1 := by
    simp [String.length]
  simp only [String.length_append] at hlen
  rw [hrep] at hlen
  omega

/-- C1 amended: for every repository record whose fields are present, the
rendered entry contains the description in full (`pyStr description`, not a
truncation of it); combined with `summary_size_not_bounded`, the rendered
summary is bounded in record count but not in field-value length. -/
theorem summary_renders_description_in_full (i : Nat) (repo : PyDict)
    (full_name stars description topics language topicsSliced : PyVal)
    (topicsJoined : String)
    (h1 : repo.lookup "full_name" = some full_name)
    (h2 : repo.lookup "stars" = some stars)
    (h3 : repo.lookup "description" = some description)
    (h4 : repo.lookup "topics" = some topics)
    (h5 : pySlice 5 topics = .ok topicsSliced)
    (h6 : pyJoinComma topicsSliced = .ok topicsJoined)
    (h7 : repo.lookup "language" = some language) :
    render_repo i repo = .ok (toString i ++ ". " ++ pyStr full_name ++ " (" ++
      pyStr stars ++ "⭐)\n" ++ "   Description: " ++ pyStr description ++
      "\n" ++ "   Topics: " ++ topicsJoined ++ "\n" ++ "   Language: " ++
      pyStr language ++ "\n") := by
  simp only [render_repo, dict_get, except_bind_ok, h1, h2, h3, h4, h5, h6, h7]
  rfl

/-- C1 amended witness: the rendered entry of a concrete record. -/
theorem summary_renders_description_in_full_witness :
    render_repo 1 (sampleRepo "r1" 100) = .ok (toString 1 ++ ". " ++
      pyStr (.str "r1") ++ " (" ++ pyStr (.int 100) ++ "⭐)\n" ++
      "   Description: " ++ pyStr (.str "d") ++ "\n" ++ "   Topics: " ++
      "" ++ "\n" ++ "   Language: " ++ pyStr (.str "Python") ++ "\n") :=
  summary_renders_description_in_full 1 (sampleRepo "r1" 100)
    (.str "r1") (.int 100) (.str "d") (.list []) (.str "Python") (.list [])
    "" rfl rfl rfl rfl rfl rfl rfl

end EcosystemMapper
